import Mathlib

/-!
# ESP32/User_Setup.h : the configuration table of the office sign

The repository is one C header made of object-like `#define` directives.  The
embedding keeps the header as text, line by line, and runs on it the part of
the C preprocessor the header exercises: removal of `//` comments, recognition
of `#define NAME replacement`, and the value of an integer replacement.  A
constant of the header is then what this reading of the text yields, so a
statement about a constant is a statement about the file.
-/

namespace UserSetup

/-! ## The source text -/

/-- The text of `ESP32/User_Setup.h`, one string per line, in file order. -/
def sourceLines : List String := [
  "// User_Setup.h for ESP32 Cheap Yellow Display (CYD) with ILI9341",
  "// This file configures TFT_eSPI library for the CYD board",
  "//",
  "// IMPORTANT: Copy this file to your Arduino/libraries/TFT_eSPI/ folder",
  "// and rename it to User_Setup.h (replacing the existing one)",
  "// OR use User_Setup_Select.h to include this file",
  "",
  "#define USER_SETUP_INFO \"CYD_ILI9341_Office_Sign\"",
  "",
  "// =====================",
  "// Display driver",
  "// =====================",
  "#define ILI9341_DRIVER",
  "",
  "// =====================",
  "// Display dimensions",
  "// =====================",
  "#define TFT_WIDTH  240",
  "#define TFT_HEIGHT 320",
  "",
  "// =====================",
  "// ESP32 pins for TFT (HSPI)",
  "// =====================",
  "#define TFT_MISO 12",
  "#define TFT_MOSI 13",
  "#define TFT_SCLK 14",
  "#define TFT_CS   15",
  "#define TFT_DC    2",
  "#define TFT_RST  -1  // Connected to EN/Reset, use -1",
  "",
  "// Backlight control",
  "#define TFT_BL   21",
  "#define TFT_BACKLIGHT_ON HIGH",
  "",
  "// =====================",
  "// Touch pins (XPT2046 on VSPI)",
  "// =====================",
  "#define TOUCH_CS 33  // Note: CYD uses pin 33 for touch CS",
  "",
  "// =====================",
  "// SPI frequency",
  "// =====================",
  "#define SPI_FREQUENCY       40000000  // 40 MHz (stable for CYD)",
  "#define SPI_READ_FREQUENCY  20000000",
  "#define SPI_TOUCH_FREQUENCY  2500000",
  "",
  "// =====================",
  "// Fonts to include",
  "// =====================",
  "#define LOAD_GLCD   // Standard Adafruit 5x7 font",
  "#define LOAD_FONT2  // Small 16 pixel font",
  "#define LOAD_FONT4  // Medium 26 pixel font",
  "#define LOAD_FONT6  // Large 48 pixel numeric font",
  "#define LOAD_FONT7  // 7 segment 48 pixel font",
  "#define LOAD_FONT8  // Large 75 pixel font",
  "#define LOAD_GFXFF  // FreeFonts",
  "",
  "// Enable smooth fonts (anti-aliased)",
  "#define SMOOTH_FONT",
  "",
  "// =====================",
  "// Optional features",
  "// =====================",
  "// Use HSPI port for display",
  "#define USE_HSPI_PORT",
  "",
  "// Enable DMA for faster screen updates (ESP32)",
  "// #define TFT_SPI_DMA  // Uncomment if needed"
]

/-! ## Characters -/

/-- The double quote that opens and closes a C string literal. -/
def dquote : Char := Char.ofNat 34

/-- The backslash, the escape character inside a C string literal. -/
def bslash : Char := Char.ofNat 92

/-- Horizontal white space between preprocessing tokens. -/
def isBlank (c : Char) : Bool := c == ' ' || c == Char.ofNat 9

/-- A character that may appear in a C identifier. -/
def isIdentChar (c : Char) : Bool := c.isAlphanum || c == '_'

/-- A character that may start a C identifier. -/
def isIdentStart (c : Char) : Bool := c.isAlpha || c == '_'

/-- Text without its leading and trailing white space. -/
def trim (cs : List Char) : List Char :=
  ((cs.dropWhile isBlank).reverse.dropWhile isBlank).reverse

/-! ## Comment removal -/

/-- Where the scanner stands in a line: in code, in code right after one `/`,
inside a string literal, or inside a string literal right after a backslash. -/
inductive Scan
  | code
  | slash
  | str
  | strEsc
deriving DecidableEq, Repr

/-- A line split at its `//` comment: the code before it and, when the line
has a comment, the comment's text.  `//` inside a string literal is text of
the literal. -/
def splitComment : Scan → List Char → List Char × Option (List Char)
  | Scan.slash, [] => (['/'], none)
  | _, [] => ([], none)
  | Scan.code, c :: rest =>
    if c == '/' then splitComment Scan.slash rest
    else
      let r := splitComment (if c == dquote then Scan.str else Scan.code) rest
      (c :: r.1, r.2)
  | Scan.slash, c :: rest =>
    if c == '/' then ([], some rest)
    else
      let r := splitComment (if c == dquote then Scan.str else Scan.code) rest
      ('/' :: c :: r.1, r.2)
  | Scan.str, c :: rest =>
    let r := splitComment
      (if c == bslash then Scan.strEsc else if c == dquote then Scan.code else Scan.str) rest
    (c :: r.1, r.2)
  | Scan.strEsc, c :: rest =>
    let r := splitComment Scan.str rest
    (c :: r.1, r.2)

/-- The code of a line: the line with its comment removed. -/
def codeOf (line : String) : List Char := (splitComment Scan.code line.toList).1

/-- The comment of a line, when it has one. -/
def commentOf (line : String) : Option (List Char) := (splitComment Scan.code line.toList).2

/-! ## Directives -/

/-- What one line of the header is to the preprocessor. -/
inductive Line
  | blank
  | define (name : String) (body : String)
  | defineFn (name : String) (rest : String)
  | directive (text : String)
  | text (text : String)
deriving DecidableEq, Repr

/-- The reading of `define` followed by a macro name: the name is the longest
identifier, a `(` right after it makes the macro function-like, otherwise the
rest of the line, trimmed, is the replacement. -/
def parseDefine (afterKeyword : List Char) : Line :=
  let cs := afterKeyword.dropWhile isBlank
  let name := cs.takeWhile isIdentChar
  let rest := cs.dropWhile isIdentChar
  match name with
  | [] => Line.directive (String.mk afterKeyword)
  | n :: _ =>
    if !isIdentStart n then Line.directive (String.mk afterKeyword)
    else match rest with
      | [] => Line.define (String.mk name) ""
      | r :: _ =>
        if r == '(' then Line.defineFn (String.mk name) (String.mk rest)
        else if isBlank r then Line.define (String.mk name) (String.mk (trim rest))
        else Line.directive (String.mk afterKeyword)

/-- The reading of one line of code (comment already removed). -/
def parseCode (code : List Char) : Line :=
  match code.dropWhile isBlank with
  | [] => Line.blank
  | c :: rest =>
    if c == '#' then
      let d := rest.dropWhile isBlank
      if d.takeWhile isIdentChar == "define".toList then
        parseDefine (d.dropWhile isIdentChar)
      else Line.directive (String.mk d)
    else Line.text (String.mk (c :: rest))

/-- The reading of one source line. -/
def parseLine (line : String) : Line := parseCode (codeOf line)

/-- Every line of a header that is neither blank nor an object-like `#define`:
function-like macros, other directives (`#undef`, `#if`, `#include`) and
program text. -/
def otherLines (lines : List String) : List String :=
  lines.filter fun l =>
    match parseLine l with
    | Line.blank => false
    | Line.define _ _ => false
    | _ => true

/-! ## Headings

The header groups its definitions under banners: a rule of `=` signs, a title
comment, a rule. -/

/-- Number of places at which `pat` occurs in `cs`. -/
def occurrences (pat : List Char) : List Char → Nat
  | [] => if pat.isEmpty then 1 else 0
  | c :: rest => (if pat.isPrefixOf (c :: rest) then 1 else 0) + occurrences pat rest

/-- A comment-only line whose comment is a rule: `=` signs and nothing else. -/
def isRule (line : String) : Bool :=
  parseLine line == Line.blank &&
    match commentOf line with
    | some t => !(trim t).isEmpty && (trim t).all (· == '=')
    | none => false

/-- The text of a comment-only line that is not a rule. -/
def titleOf (line : String) : Option String :=
  if parseLine line == Line.blank && !isRule line then
    (commentOf line).map fun t => String.mk (trim t)
  else none

/-- Progress through a banner: outside one, after its opening rule, after its
title. -/
inductive Banner
  | idle
  | opened
  | titled (title : String)
deriving DecidableEq, Repr

/-- One object-like macro definition of the header. -/
structure Entry where
  /-- Line of the directive, counted from 1. -/
  line : Nat
  /-- Title of the banner the directive stands under, empty before the first. -/
  heading : String
  /-- The macro name. -/
  name : String
  /-- The replacement, as written, without surrounding white space. -/
  body : String
deriving DecidableEq, Repr

/-- The object-like definitions of the lines, in order, each with its line
number and the banner it stands under. -/
def scanEntries : Banner → String → Nat → List String → List Entry
  | _, _, _, [] => []
  | b, h, n, l :: rest =>
    if isRule l then
      match b with
      | Banner.titled t => scanEntries Banner.idle t (n + 1) rest
      | _ => scanEntries Banner.opened h (n + 1) rest
    else
      match b, titleOf l with
      | Banner.opened, some t => scanEntries (Banner.titled t) h (n + 1) rest
      | _, _ =>
        match parseLine l with
        | Line.define name body => ⟨n, h, name, body⟩ :: scanEntries Banner.idle h (n + 1) rest
        | _ => scanEntries Banner.idle h (n + 1) rest

/-- The macro table of `User_Setup.h`. -/
def macros : List Entry := scanEntries Banner.idle "" 1 sourceLines

/-- The names the header defines, in order. -/
def macroNames : List String := macros.map (·.name)

/-- The preprocessor's `defined NAME` after the header has been read. -/
def isDefined (name : String) : Bool := macros.any (·.name == name)

/-- The replacement of a macro of the header. -/
def lookup (name : String) : Option String :=
  (macros.find? (·.name == name)).map (·.body)

/-! ## Integer values -/

/-- The value of a decimal integer constant: digits only, no leading zero
(that would be octal or hexadecimal) and no suffix. -/
def decimalValue (cs : List Char) : Option Nat :=
  match cs with
  | [] => none
  | c :: rest =>
    if cs.all Char.isDigit && (c != '0' || rest.isEmpty) then
      some (cs.foldl (fun acc d => 10 * acc + (d.toNat - 48)) 0)
    else none

/-- The value of a replacement that is an integer constant, with or without a
unary minus. -/
def intValue (body : String) : Option Int :=
  match body.toList with
  | [] => none
  | c :: rest =>
    if c == '-' then (decimalValue (rest.dropWhile isBlank)).map fun n => -(n : Int)
    else (decimalValue (c :: rest)).map Int.ofNat

/-- The integer a macro of the header stands for. -/
def valueOf (name : String) : Option Int := (lookup name).bind intValue

/-- The integer-valued macros of the header, in order. -/
def intMacros : List (String × Int) :=
  macros.filterMap fun e => (intValue e.body).map fun v => (e.name, v)

/-! ## Pin constants -/

/-- A banner title that announces pins. -/
def announcesPins (heading : String) : Bool :=
  0 < occurrences "pins".toList heading.toList

/-- The pin constants of the header: the integer-valued macros defined under a
banner that announces pins. -/
def pinConstants : List (String × Int) :=
  macros.filterMap fun e =>
    if announcesPins e.heading then (intValue e.body).map fun v => (e.name, v) else none

/-- The names of the pin constants. -/
def pinNames : List String := pinConstants.map Prod.fst

/-- The frequency constants of the header: the integer-valued macros defined
under a banner that announces a frequency. -/
def frequencyConstants : List (String × Int) :=
  macros.filterMap fun e =>
    if 0 < occurrences "frequency".toList e.heading.toList then
      (intValue e.body).map fun v => (e.name, v)
    else none

/-! ## Driver selection -/

/-- A name of the form `*_DRIVER`, the form of the display library's
driver-selection symbols. -/
def isDriverSymbol (name : String) : Bool := "_DRIVER".toList.isSuffixOf name.toList

/-- The macros of the header whose name has the form `*_DRIVER`. -/
def driverSymbols : List String := macroNames.filter isDriverSymbol

/-! ## Occurrences of a name in the text -/

/-- Number of occurrences of `name` in the whole text of the header. -/
def occurrencesInText (name : String) : Nat :=
  (sourceLines.map fun l => occurrences name.toList l.toList).sum

/-- Number of occurrences of `name` in the code of the header, comments
removed. -/
def occurrencesInCode (name : String) : Nat :=
  (sourceLines.map fun l => occurrences name.toList (codeOf l)).sum

/-- Number of occurrences of `name` inside the comments of the header. -/
def occurrencesInComments (name : String) : Nat :=
  (sourceLines.map fun l => occurrences name.toList ((commentOf l).getD [])).sum

/-! ## The vocabulary of the specification -/

/-- The sentinel the header writes for a signal that has no pin of its own. -/
def notConnected : Int := -1

/-- The highest SPI clock rate, in Hz, the display library supports on the
ESP32. -/
def maxSpiFrequency : Int := 80000000

/-- The seven electrical signals the specification gives a pin to. -/
inductive Signal
  | clock
  | data
  | chipSelect
  | dataCommand
  | reset
  | backlight
  | touchChipSelect
deriving DecidableEq, Repr

/-- All seven signals, in the order the specification lists them. -/
def Signal.all : List Signal :=
  [Signal.clock, Signal.data, Signal.chipSelect, Signal.dataCommand, Signal.reset,
   Signal.backlight, Signal.touchChipSelect]

/-- The constant that carries the pin of a signal. -/
def Signal.constant : Signal → String
  | Signal.clock => "TFT_SCLK"
  | Signal.data => "TFT_MOSI"
  | Signal.chipSelect => "TFT_CS"
  | Signal.dataCommand => "TFT_DC"
  | Signal.reset => "TFT_RST"
  | Signal.backlight => "TFT_BL"
  | Signal.touchChipSelect => "TOUCH_CS"

/-- The pin constants of the header are, up to order, one constant for each of
the seven signals and nothing else, `constantOf` naming the constant of a
signal. -/
def OnePinPerSignal (constantOf : Signal → String) : Prop :=
  (Signal.all.map constantOf).Perm pinNames

/-! ## The reading is complete -/

/-- The header is nothing but blank lines, comments and object-like
definitions: no `#undef`, no conditional, no inclusion, no function-like macro
and no program text, so what a line defines stays defined. -/
theorem header_is_flat : otherLines sourceLines = [] := by decide

/-- The header has no block comment and no line ending in a backslash, the
two line-crossing constructs of the early translation phases, so reading it a
line at a time loses nothing. -/
theorem lines_are_independent :
    occurrencesInText "/*" = 0 ∧
      sourceLines.all (fun l => l.toList.getLast? != some bslash) = true := by
  decide

/-- No name is defined twice, so the replacement of a name is the one of its
only definition. -/
theorem macroNames_nodup : macroNames.Nodup := by decide

/-- The integer-valued macros of the header are the geometry, the pins and the
frequencies. -/
theorem intMacros_eq :
    intMacros =
      [("TFT_WIDTH", 240), ("TFT_HEIGHT", 320), ("TFT_MISO", 12), ("TFT_MOSI", 13),
       ("TFT_SCLK", 14), ("TFT_CS", 15), ("TFT_DC", 2), ("TFT_RST", -1), ("TFT_BL", 21),
       ("TOUCH_CS", 33), ("SPI_FREQUENCY", 40000000), ("SPI_READ_FREQUENCY", 20000000),
       ("SPI_TOUCH_FREQUENCY", 2500000)] := by decide

/-- The only macro of the header named `*_DRIVER`. -/
theorem driverSymbols_eq : driverSymbols = ["ILI9341_DRIVER"] := by decide

/-- The header has eight pin constants. -/
theorem pinNames_length : pinNames.length = 8 := by decide

/-! ## The claims -/

/-- C1: among the driver-selection symbols the display library recognises (any
set of names of the form `*_DRIVER` that has `ILI9341_DRIVER` in it), the
header defines exactly one, once, and it is `ILI9341_DRIVER`. -/
theorem driver_selection_is_ILI9341 (recognised : List String)
    (hform : recognised.all isDriverSymbol = true)
    (hili : "ILI9341_DRIVER" ∈ recognised) :
    macroNames.filter (fun n => decide (n ∈ recognised)) = ["ILI9341_DRIVER"] := by
  have hcongr : ∀ n ∈ macroNames, decide (n ∈ recognised) = isDriverSymbol n := by
    intro n hn
    cases hd : isDriverSymbol n with
    | true =>
      have hmem : n ∈ driverSymbols := List.mem_filter.mpr ⟨hn, hd⟩
      rw [driverSymbols_eq] at hmem
      have hn' : n = "ILI9341_DRIVER" := by simpa using hmem
      subst hn'
      simpa using hili
    | false =>
      have hnot : n ∉ recognised := fun hmem => by
        have ht := List.all_eq_true.mp hform n hmem
        rw [hd] at ht
        exact Bool.noConfusion ht
      simpa using hnot
  rw [List.filter_congr hcongr]
  exact driverSymbols_eq

/-- C1 at the driver symbols of the display library's own setup template. -/
theorem driver_selection_is_ILI9341_witness :
    macroNames.filter
        (fun n => decide (n ∈ ["ILI9341_DRIVER", "ILI9341_2_DRIVER", "ST7735_DRIVER",
          "ILI9163_DRIVER", "S6D02A1_DRIVER", "RPI_ILI9486_DRIVER", "HX8357D_DRIVER",
          "ILI9481_DRIVER", "ILI9486_DRIVER", "ILI9488_DRIVER", "ST7789_DRIVER",
          "ST7789_2_DRIVER", "R61581_DRIVER", "RM68140_DRIVER", "ST7796_DRIVER",
          "SSD1351_DRIVER", "SSD1963_480_DRIVER", "SSD1963_800_DRIVER",
          "SSD1963_800ALT_DRIVER", "ILI9225_DRIVER", "GC9A01_DRIVER"])) =
      ["ILI9341_DRIVER"] :=
  driver_selection_is_ILI9341 _ (by decide) (by decide)

/-- C2: the display bus wiring is data pin `TFT_MOSI` 13, clock pin `TFT_SCLK`
14, chip-select pin `TFT_CS` 15, command pin `TFT_DC` 2 and reset pin `TFT_RST`
-1, the not-connected sentinel. -/
theorem display_bus_wiring :
    valueOf "TFT_MOSI" = some 13 ∧ valueOf "TFT_SCLK" = some 14 ∧
      valueOf "TFT_CS" = some 15 ∧ valueOf "TFT_DC" = some 2 ∧
      valueOf "TFT_RST" = some (-1) ∧ valueOf "TFT_RST" = some notConnected := by
  decide

/-- C3: the bus frequencies are `SPI_FREQUENCY` 40,000,000 Hz,
`SPI_READ_FREQUENCY` 20,000,000 Hz and `SPI_TOUCH_FREQUENCY` 2,500,000 Hz. -/
theorem bus_frequencies :
    valueOf "SPI_FREQUENCY" = some 40000000 ∧
      valueOf "SPI_READ_FREQUENCY" = some 20000000 ∧
      valueOf "SPI_TOUCH_FREQUENCY" = some 2500000 := by
  decide

/-- C4: the panel is `TFT_WIDTH` 240 by `TFT_HEIGHT` 320 pixels. -/
theorem panel_geometry :
    valueOf "TFT_WIDTH" = some 240 ∧ valueOf "TFT_HEIGHT" = some 320 := by
  decide

/-- C5: the backlight pin `TFT_BL` is 21, its on-level `TFT_BACKLIGHT_ON` is
`HIGH`, a name the header itself leaves to the platform, and the touch
chip-select pin `TOUCH_CS` is 33. -/
theorem auxiliary_wiring :
    valueOf "TFT_BL" = some 21 ∧ lookup "TFT_BACKLIGHT_ON" = some "HIGH" ∧
      isDefined "HIGH" = false ∧ valueOf "TOUCH_CS" = some 33 := by
  decide

/-- C6: `TFT_SPI_DMA` is not defined, its name occurs once in the text of the
header and that occurrence is inside a comment, while `SMOOTH_FONT` and
`USE_HSPI_PORT` are defined. -/
theorem dma_flag_disabled :
    isDefined "TFT_SPI_DMA" = false ∧ occurrencesInText "TFT_SPI_DMA" = 1 ∧
      occurrencesInCode "TFT_SPI_DMA" = 0 ∧ occurrencesInComments "TFT_SPI_DMA" = 1 ∧
      isDefined "SMOOTH_FONT" = true ∧ isDefined "USE_HSPI_PORT" = true := by
  decide

/-- C7: the pin constants of the header are `TFT_MISO`, `TFT_MOSI`, `TFT_SCLK`,
`TFT_CS`, `TFT_DC`, `TFT_RST`, `TFT_BL` and `TOUCH_CS`, and the value of each is
the sentinel -1 or an ESP32 GPIO number, 0 to 39. -/
theorem pin_values_valid :
    pinNames =
        ["TFT_MISO", "TFT_MOSI", "TFT_SCLK", "TFT_CS", "TFT_DC", "TFT_RST", "TFT_BL",
         "TOUCH_CS"] ∧
      ∀ p ∈ pinConstants,
        valueOf p.1 = some p.2 ∧ (p.2 = notConnected ∨ (0 ≤ p.2 ∧ p.2 ≤ 39)) := by
  decide

/-- C7 at the reset pin, which has the sentinel, not a GPIO number. -/
theorem pin_values_valid_witness :
    ("TFT_RST", (-1 : Int)) ∈ pinConstants ∧ valueOf "TFT_RST" = some (-1) ∧
      ((-1 : Int) = notConnected ∨ (0 ≤ (-1 : Int) ∧ (-1 : Int) ≤ 39)) :=
  ⟨by decide, pin_values_valid.2 ("TFT_RST", -1) (by decide)⟩

/-- C8: the frequency constants of the header are `SPI_FREQUENCY`,
`SPI_READ_FREQUENCY` and `SPI_TOUCH_FREQUENCY`, and each is a positive integer
of at most 80,000,000 Hz. -/
theorem frequencies_in_range :
    frequencyConstants.map Prod.fst =
        ["SPI_FREQUENCY", "SPI_READ_FREQUENCY", "SPI_TOUCH_FREQUENCY"] ∧
      ∀ p ∈ frequencyConstants,
        valueOf p.1 = some p.2 ∧ 0 < p.2 ∧ p.2 ≤ maxSpiFrequency := by
  decide

/-- C8 at the main bus frequency. -/
theorem frequencies_in_range_witness :
    ("SPI_FREQUENCY", (40000000 : Int)) ∈ frequencyConstants ∧
      valueOf "SPI_FREQUENCY" = some 40000000 ∧ (0 : Int) < 40000000 ∧
      (40000000 : Int) ≤ maxSpiFrequency :=
  ⟨by decide, frequencies_in_range.2 ("SPI_FREQUENCY", 40000000) (by decide)⟩

/-- C9, as stated, fails: `TFT_MISO` = 12 is a pin constant of the header, it is
the constant of none of the seven signals, and with it the header has eight pin
constants, so no naming of the seven signals makes them one constant each and
nothing else. -/
theorem miso_is_an_eighth_pin_constant :
    ("TFT_MISO", 12) ∈ pinConstants ∧ "TFT_MISO" ∉ Signal.all.map Signal.constant ∧
      ¬ ∃ constantOf : Signal → String, OnePinPerSignal constantOf := by
  refine ⟨by decide, by decide, ?_⟩
  rintro ⟨constantOf, h⟩
  have hlen := h.length_eq
  rw [pinNames_length] at hlen
  simp [Signal.all] at hlen

/-- C9, amended: the pin constants of the header are, up to order, `TFT_MISO`
and the constants of the seven signals, nothing else; `TFT_MISO` is 12; each
pin constant is defined exactly once and stands for one integer, its value. -/
theorem pins_are_seven_signals_and_miso :
    pinNames.Perm ("TFT_MISO" :: Signal.all.map Signal.constant) ∧
      ("TFT_MISO", (12 : Int)) ∈ pinConstants ∧ valueOf "TFT_MISO" = some 12 ∧
      pinNames.Nodup ∧
      ∀ p ∈ pinConstants, macroNames.count p.1 = 1 ∧ valueOf p.1 = some p.2 := by
  decide

/-- C9, amended, at the constant the seven signals leave out. -/
theorem pins_are_seven_signals_and_miso_witness :
    ("TFT_MISO", (12 : Int)) ∈ pinConstants ∧ macroNames.count "TFT_MISO" = 1 ∧
      valueOf "TFT_MISO" = some 12 :=
  ⟨by decide, pins_are_seven_signals_and_miso.2.2.2.2 ("TFT_MISO", 12) (by decide)⟩

/-- C10: the pin constants other than the sentinel are `TFT_MISO`, `TFT_MOSI`,
`TFT_SCLK`, `TFT_CS`, `TFT_DC`, `TFT_BL` and `TOUCH_CS`, and no two of them have
the same pin. -/
theorem pins_not_shared :
    (pinConstants.filter fun p => p.2 ≠ notConnected).map Prod.fst =
        ["TFT_MISO", "TFT_MOSI", "TFT_SCLK", "TFT_CS", "TFT_DC", "TFT_BL", "TOUCH_CS"] ∧
      ∀ p ∈ pinConstants, ∀ q ∈ pinConstants,
        p.1 ≠ q.1 → p.2 ≠ notConnected → q.2 ≠ notConnected → p.2 ≠ q.2 := by
  decide

/-- C10 at the two data lines of the display bus, pins 12 and 13. -/
theorem pins_not_shared_witness :
    ("TFT_MISO", (12 : Int)) ∈ pinConstants ∧ ("TFT_MOSI", (13 : Int)) ∈ pinConstants ∧
      (12 : Int) ≠ 13 :=
  ⟨by decide, by decide,
    pins_not_shared.2 ("TFT_MISO", 12) (by decide) ("TFT_MOSI", 13) (by decide)
      (by decide) (by decide) (by decide)⟩

end UserSetup
